import Mathlib

/-!
Shallow embedding of the middleware resolution and composition kernel
(`src/core/kernel.py`) of the fastapi-middleware-orchestration-layer
repository, together with theorems settling the specification claims.

Requests and responses are opaque to the kernel; we model both as `Nat`.
A Python function "returning no value" (returning `None`) is modelled as an
`Option Nat` result of `none`.  The behaviour of user-supplied middleware
bodies is opaque to the kernel and is passed in as a semantic parameter.
-/

/-- A plain middleware function value.  `id` is the function's identity;
`acceptsCallNext` records whether its declared parameters include a
continuation (`call_next`) parameter.  Calling a function that does not
declare the continuation parameter with a positional continuation argument
raises `TypeError` in Python. -/
structure FuncVal where
  id : Nat
  acceptsCallNext : Bool
  deriving DecidableEq, Repr

/-- A Python class value.  `id` is the class's identity;
`isBaseHTTPSubclass` records `issubclass(cls, BaseHTTPMiddleware)`;
`hasInstanceCall` records whether the class itself defines an
instance-level `__call__` method (the shape of a raw ASGI middleware). -/
structure ClassVal where
  id : Nat
  isBaseHTTPSubclass : Bool
  hasInstanceCall : Bool
  deriving DecidableEq, Repr

/-- A middleware reference (`MiddlewareRef` in `kernel.py`): a string (name
or dotted import path), a function, a class, or — beyond the declared type
alias but handled by the code's final `raise` branch — any other
non-string, non-function, non-class, non-callable value (`other`). -/
inductive MiddlewareRef where
  | str (s : String)
  | func (f : FuncVal)
  | cls (c : ClassVal)
  | other (n : Nat)
  deriving DecidableEq, Repr

/-- The errors the kernel can raise, plus `unknownMiddlewareName`, an error
class named by the specification's taxonomy that the code never produces
(kept distinct so claims about it can be stated). -/
inductive KernelError where
  | importError (path : String)
  | duplicateName (name : String)
  | invalidClass (c : ClassVal)
  | invalidRef (r : MiddlewareRef)
  | invalidStackEntry (r : MiddlewareRef)
  | missingRequestContext
  | asgiNotRouteApplicable
  | notBaseHTTPForRoute
  | appNotInitialized
  | typeError
  | unknownMiddlewareName (name : String)
  deriving DecidableEq, Repr

/-- The process-wide named registry `MIDDLEWARE_REGISTRY`, a mapping from
string names to middleware references (modelled as an association list with
unique keys, newest binding first). -/
abbrev Registry := List (String × MiddlewareRef)

/-- The import environment: what the Python import system would return for
a dotted path (an external collaborator of `_import_string`).  `none`
models a failing import (module not found or attribute missing). -/
abbrev ImportEnv := String → Option MiddlewareRef

/-- Construction keyword arguments, with opaque values. -/
abbrev Kwargs := List (String × Nat)

/-- Embedding of `_import_string` (kernel.py lines 32–50): `rsplit(".", 1)`
on a string with no dot raises `ValueError`, caught and re-raised as
`ImportError`; with a dot, the import system may still fail (modelled by
the environment returning `none`), also re-raised as `ImportError`. -/
def import_string (env : ImportEnv) (path : String) : Except KernelError MiddlewareRef :=
  if path.toList.contains '.' then
    match env path with
    | some v => .ok v
    | none => .error (.importError path)
  else .error (.importError path)

/-- In Python, `getattr(cls, "__call__", None)` on a class always finds at
least the metaclass method `type.__call__` (attribute lookup on a class
falls back to its metaclass), and that method wrapper is callable.  So the
`callable(getattr(cls, "__call__", None))` conjunct of
`_is_asgi_middleware` is `true` for every class, whether or not the class
defines its own instance-level `__call__`. -/
def callableGetattrCall (_c : ClassVal) : Bool := true

/-- Embedding of `_is_asgi_middleware` (kernel.py lines 53–68):
`inspect.isclass(cls) and callable(getattr(cls, "__call__", None)) and not
issubclass(cls, BaseHTTPMiddleware)`. -/
def is_asgi_middleware : MiddlewareRef → Bool
  | .cls c => callableGetattrCall c && !c.isBaseHTTPSubclass
  | _ => false

/-- The check `_is_asgi_middleware` was presumably intended to perform
(per the spec, §4.1): the class's only capability is the raw transport
call signature, i.e. the class itself defines `__call__` for its instances
and is not a chain-dispatch (`BaseHTTPMiddleware`) subclass. -/
def is_asgi_middleware_intended (c : ClassVal) : Bool :=
  c.hasInstanceCall && !c.isBaseHTTPSubclass

/-- The two canonical forms `_resolve_middleware` can return: the local
`FuncMiddleware` subclass wrapping a plain function, or a middleware class
(`BaseHTTPMiddleware` subclass or raw ASGI class) returned as-is. -/
inductive Resolved where
  | funcMiddleware (f : FuncVal)
  | mwClass (c : ClassVal)
  deriving DecidableEq, Repr

/-- Embedding of `_resolve_middleware` (kernel.py lines 71–126).  A string
is first looked up in the registry, else imported; a registry value that is
itself a string is imported; a function is wrapped as `FuncMiddleware`; a
class is returned if it is a `BaseHTTPMiddleware` subclass or passes
`_is_asgi_middleware`, else the `ValueError("Middleware class must be …")`
branch fires; anything else raises `ValueError("MiddlewareRef invalide …")`. -/
def resolve_middleware (env : ImportEnv) (reg : Registry) (ref : MiddlewareRef) :
    Except KernelError Resolved :=
  let step1 : Except KernelError MiddlewareRef :=
    match ref with
    | .str s =>
      match reg.lookup s with
      | some r => .ok r
      | none => import_string env s
    | r => .ok r
  match step1 with
  | .error e => .error e
  | .ok v1 =>
    let step2 : Except KernelError MiddlewareRef :=
      match v1 with
      | .str s => import_string env s
      | r => .ok r
    match step2 with
    | .error e => .error e
    | .ok v2 =>
      match v2 with
      | .func f => .ok (.funcMiddleware f)
      | .cls c =>
        if c.isBaseHTTPSubclass || is_asgi_middleware (.cls c) then .ok (.mwClass c)
        else .error (.invalidClass c)
      | v => .error (.invalidRef v)

/-- Embedding of `register_named_middleware` (kernel.py lines 129–143):
raise `ValueError` if the name is bound and `override` is false, else
(re)bind by dictionary assignment. -/
def register_named_middleware (reg : Registry) (name : String) (ref : MiddlewareRef)
    (override : Bool) : Except KernelError Registry :=
  if (reg.lookup name).isSome && !override then .error (.duplicateName name)
  else .ok ((name, ref) :: reg.filter (fun p => p.1 != name))

/-- Embedding of the bulk pre-load loop at kernel.py lines 334–337: every
entry of the static name table is passed to `register_named_middleware`
with the default `override=False`. -/
def bulk_load_named (table : List (String × MiddlewareRef)) (reg : Registry) :
    Except KernelError Registry :=
  match table with
  | [] => .ok reg
  | (n, r) :: rest =>
    match register_named_middleware reg n r false with
    | .ok reg1 => bulk_load_named rest reg1
    | .error e => .error e

/-- The `RequestContextMiddleware` class (kernel.py lines 313–331): a
`BaseHTTPMiddleware` subclass (its instances, like every
`BaseHTTPMiddleware`, are ASGI-callable).  Its class identity is fixed as
id `0` in this development. -/
def RequestContextMiddlewareClass : ClassVal := ⟨0, true, true⟩

/-- The resolved form of `RequestContextMiddleware`, as it appears in the
installed pipeline. -/
def RCM : Resolved := .mwClass RequestContextMiddlewareClass

/-- One entry of the host application's installed middleware pipeline: the
middleware class and the construction keyword arguments it was installed
with. -/
structure InstalledMiddleware where
  cls : Resolved
  kwargs : Kwargs
  deriving DecidableEq, Repr

/-- The host application, reduced to its installed middleware pipeline
(`app.user_middleware`). -/
structure App where
  user_middleware : List InstalledMiddleware
  deriving DecidableEq, Repr

/-- Modelled from the spec: the host framework's `app.add_middleware`, an
external collaborator (the web framework is out of scope of the
repository).  Spec §6 requires of it "an ordered middleware-installation
API preserving insertion order as wrap order", so installation appends to
the pipeline and the earliest entry of the pipeline is outermost. -/
def add_middleware (app : App) (c : Resolved) (kwargs : Kwargs) : App :=
  ⟨app.user_middleware ++ [⟨c, kwargs⟩]⟩

/-- Embedding of `_is_middleware_registered` (kernel.py lines 226–237):
whether some entry of `app.user_middleware` has `cls` equal to the given
class. -/
def is_middleware_registered (app : App) (c : Resolved) : Bool :=
  app.user_middleware.any (fun m => m.cls == c)

/-- The `Middleware` descriptor class (kernel.py lines 278–310): the
original reference, the class it resolved to at construction time, the
construction keyword arguments, and the group tags. -/
structure MiddlewareDescr where
  ref : MiddlewareRef
  cls : Resolved
  kwargs : Kwargs
  groups : List String
  deriving DecidableEq, Repr

/-- Embedding of `Middleware.__init__` (kernel.py lines 291–305): resolve
the reference, record kwargs and groups, and, when a `middleware_name` is
given, register it (with the default `override=False`). -/
def Middleware_init (env : ImportEnv) (reg : Registry) (ref : MiddlewareRef)
    (groups : List String) (mwName : Option String) (kwargs : Kwargs) :
    Except KernelError (MiddlewareDescr × Registry) :=
  match resolve_middleware env reg ref with
  | .error e => .error e
  | .ok c =>
    match mwName with
    | none => .ok (⟨ref, c, kwargs, groups⟩, reg)
    | some n =>
      match register_named_middleware reg n ref false with
      | .ok reg1 => .ok (⟨ref, c, kwargs, groups⟩, reg1)
      | .error e => .error e

/-- One entry of the global middleware stack list: either a `Middleware`
descriptor instance, or a raw reference (a string, function or class — the
`isinstance(middleware, (str, Callable, type))` branch; `MiddlewareRef.other`
stands for a non-callable value that falls to the final `raise`). -/
inductive StackEntry where
  | descr (m : MiddlewareDescr)
  | raw (r : MiddlewareRef)
  deriving DecidableEq, Repr

/-- The group filter of `register_middlewares` (kernel.py line 265):
`group is None or group in middleware.groups`. -/
def group_allows (group : Option String) (m : MiddlewareDescr) : Bool :=
  match group with
  | none => true
  | some g => m.groups.contains g

/-- The stack-iteration loop of `register_middlewares` (kernel.py lines
263–275): descriptors are installed with their kwargs when the group
filter passes; raw string/function/class entries are resolved and
installed with no kwargs, regardless of the group; any other entry raises
`ValueError("Invalid middleware type: …")`. -/
def install_stack (env : ImportEnv) (reg : Registry) (group : Option String) :
    App → List StackEntry → Except KernelError App
  | app, [] => .ok app
  | app, .descr m :: rest =>
    if group_allows group m then
      install_stack env reg group (add_middleware app m.cls m.kwargs) rest
    else
      install_stack env reg group app rest
  | _, .raw (.other n) :: _ => .error (.invalidStackEntry (.other n))
  | app, .raw (.str s) :: rest =>
    match resolve_middleware env reg (.str s) with
    | .ok c => install_stack env reg group (add_middleware app c []) rest
    | .error e => .error e
  | app, .raw (.func f) :: rest =>
    match resolve_middleware env reg (.func f) with
    | .ok c => install_stack env reg group (add_middleware app c []) rest
    | .error e => .error e
  | app, .raw (.cls c) :: rest =>
    match resolve_middleware env reg (.cls c) with
    | .ok c1 => install_stack env reg group (add_middleware app c1 []) rest
    | .error e => .error e

/-- The guard of kernel.py lines 259–261: add `RequestContextMiddleware`
unless it is already present in the pipeline. -/
def ensure_rcm (app : App) : App :=
  if is_middleware_registered app RCM then app else add_middleware app RCM []

/-- Embedding of `register_middlewares` (kernel.py lines 240–275), with
the stack passed explicitly (the code imports it from
`MIDDLEWARE_STACK_MODULE`; the assignment to `_internal_app` is modelled
separately in the route-level applicator). -/
def register_middlewares (env : ImportEnv) (reg : Registry) (app : App)
    (stack : List StackEntry) (group : Option String) : Except KernelError App :=
  install_stack env reg group (ensure_rcm app) stack

/-- A sequence of calls to `register_middlewares`, each with its own stack
and group argument, threading the application. -/
def install_calls (env : ImportEnv) (reg : Registry) :
    App → List (List StackEntry × Option String) → Except KernelError App
  | app, [] => .ok app
  | app, c :: rest =>
    match register_middlewares env reg app c.1 c.2 with
    | .ok a => install_calls env reg a rest
    | .error e => .error e

/-- Identity of a resolved middleware, used to label trace events. -/
def mwId : Resolved → Nat
  | .funcMiddleware f => f.id
  | .mwClass c => c.id

/-- Observable events of one request passing through a chain of
middlewares around the routed handler. -/
inductive Event where
  | before (id : Nat)
  | handler
  | after (id : Nat)
  deriving DecidableEq, Repr

/-- Modelled from the spec: the host framework's execution of the
installed pipeline (an external collaborator).  Spec §6: a chain-capable
middleware's `dispatch(request, continuation)` runs its before-logic,
advances through the continuation, then runs its after-logic; the
earliest-installed pipeline entry is outermost and wraps the rest, down to
the routed handler. -/
def runChain : List Resolved → List Event
  | [] => [.handler]
  | m :: rest => .before (mwId m) :: runChain rest ++ [.after (mwId m)]

/-- The behaviour of user-supplied middleware bodies (function bodies and
class `dispatch` bodies), opaque to the kernel: given the middleware's
identity, its construction kwargs, the request, and the continuation, it
produces the returned value (`none` models a Python `None` return). -/
abbrev Sem := Nat → Kwargs → Nat → (Nat → Option Nat) → Option Nat

/-- Embedding of `FuncMiddleware.dispatch` (kernel.py lines 103–111): the
wrapper's dispatch is exactly `await cls_or_func(request, call_next,
**self.kwargs)` — the function's returned value is the wrapper's result,
with no parameter inspection and no fallback.  Calling a function whose
declared parameters do not include the continuation with the positional
`call_next` argument raises `TypeError`. -/
def FuncMiddleware_dispatch (sem : Sem) (f : FuncVal) (kwargs : Kwargs)
    (request : Nat) (call_next : Nat → Option Nat) : Except KernelError (Option Nat) :=
  if f.acceptsCallNext then .ok (sem f.id kwargs request call_next)
  else .error .typeError

/-- The wrapper behaviour described by the spec's words (§4.1), for
comparison with `FuncMiddleware_dispatch`: inspect the declared
parameters; if the function accepts a continuation, forward it and, when
the function returns no value, invoke the continuation instead
(pass-through); if it does not accept a continuation, invoke the function
for its side effect only and then unconditionally invoke the
continuation. -/
def spec_func_wrapper_dispatch (sem : Sem) (f : FuncVal) (kwargs : Kwargs)
    (request : Nat) (call_next : Nat → Option Nat) : Except KernelError (Option Nat) :=
  if f.acceptsCallNext then
    match sem f.id kwargs request call_next with
    | some r => .ok (some r)
    | none => .ok (call_next request)
  else
    .ok (call_next request)

/-- Embedding of the decoration-time part of `route_middleware` (kernel.py
lines 167–195): the reference is resolved when the decorator is built
(line 186), and applying the decorator fails when the application has not
been created yet (lines 189–192).  On success the route is registered with
a wrapped handler, represented by the resolved class and the captured
kwargs. -/
def route_middleware_decorate (env : ImportEnv) (reg : Registry)
    (ref : MiddlewareRef) (kwargs : Kwargs) (internal_app : Option App) :
    Except KernelError (Resolved × Kwargs) :=
  match resolve_middleware env reg ref with
  | .error e => .error e
  | .ok c =>
    match internal_app with
    | none => .error .appNotInitialized
    | some _ => .ok (c, kwargs)

/-- Embedding of `wrapped_handler` (kernel.py lines 197–221), as a
function of the request-context slot: read the current request from
`_request_var`, raising `RuntimeError` when absent; then, for a
`BaseHTTPMiddleware` subclass (including `FuncMiddleware`), construct it
with the captured kwargs and run its dispatch with a continuation that
returns the original route handler's result; for an ASGI middleware class
raise `ValueError` (only now, at request time); otherwise raise
`ValueError`. -/
def wrapped_handler (sem : Sem) (cls : Resolved) (kwargs : Kwargs)
    (handlerResult : Option Nat) (slot : Option Nat) : Except KernelError (Option Nat) :=
  match slot with
  | none => .error .missingRequestContext
  | some request =>
    match cls with
    | .funcMiddleware f =>
      FuncMiddleware_dispatch sem f kwargs request (fun _ => handlerResult)
    | .mwClass c =>
      if c.isBaseHTTPSubclass then
        .ok (sem c.id kwargs request (fun _ => handlerResult))
      else if is_asgi_middleware (.cls c) then
        .error .asgiNotRouteApplicable
      else
        .error .notBaseHTTPForRoute

/-- A token of the context variable `_request_var`: `ContextVar.set`
returns a token recording the value the variable had before the set, and
`ContextVar.reset(token)` restores that value. -/
structure CtxToken where
  prior : Option Nat
  deriving DecidableEq, Repr

/-- Embedding of `ContextVar.set` on `_request_var`: returns the reset
token and the new slot state. -/
def ctx_set (slot : Option Nat) (v : Nat) : CtxToken × Option Nat :=
  (⟨slot⟩, some v)

/-- Embedding of `ContextVar.reset` on `_request_var`: restores the value
recorded in the token, whatever the current slot state is. -/
def ctx_reset (_slot : Option Nat) (t : CtxToken) : Option Nat :=
  t.prior

/-- Embedding of `RequestContextMiddleware.dispatch` (kernel.py lines
325–331) with the context-variable state threaded explicitly.  The
continuation receives the request and the slot state it runs in, and
returns its outcome (possibly an exception) together with the slot state
it leaves behind; the `finally` block resets the token on both the normal
and the exceptional path, and the outcome is propagated. -/
def requestContext_dispatch (slot : Option Nat) (request : Nat)
    (call_next : Nat → Option Nat → Except KernelError (Option Nat) × Option Nat) :
    Except KernelError (Option Nat) × Option Nat :=
  let st := ctx_set slot request
  let r := call_next request st.2
  (r.1, ctx_reset r.2 st.1)

/-- The pipeline starts with an entry for `RequestContextMiddleware`
installed with no construction arguments. -/
def headRCM (app : App) : Prop :=
  ∃ t, app.user_middleware = ⟨RCM, []⟩ :: t

/-- The stack-iteration loop only appends to the pipeline: on success its
result extends the pipeline it started from. -/
theorem install_stack_append (env : ImportEnv) (reg : Registry) (group : Option String) :
    ∀ (stack : List StackEntry) (app app' : App),
      install_stack env reg group app stack = .ok app' →
      ∃ t, app'.user_middleware = app.user_middleware ++ t := by
  intro stack
  induction stack with
  | nil =>
    intro app app' h
    injection h with h
    exact ⟨[], by simp [← h]⟩
  | cons e rest ih =>
    intro app app' h
    cases e with
    | descr m =>
      by_cases hg : group_allows group m = true
      · rw [install_stack, if_pos hg] at h
        obtain ⟨t, ht⟩ := ih _ _ h
        exact ⟨⟨m.cls, m.kwargs⟩ :: t, by simp [ht, add_middleware]⟩
      · rw [install_stack, if_neg hg] at h
        exact ih _ _ h
    | raw r =>
      cases r with
      | str s =>
        rw [install_stack] at h
        cases hr : resolve_middleware env reg (.str s) with
        | ok c =>
          rw [hr] at h
          obtain ⟨t, ht⟩ := ih _ _ h
          exact ⟨⟨c, []⟩ :: t, by simp [ht, add_middleware]⟩
        | error e0 => rw [hr] at h; cases h
      | func f =>
        rw [install_stack] at h
        cases hr : resolve_middleware env reg (.func f) with
        | ok c =>
          rw [hr] at h
          obtain ⟨t, ht⟩ := ih _ _ h
          exact ⟨⟨c, []⟩ :: t, by simp [ht, add_middleware]⟩
        | error e0 => rw [hr] at h; cases h
      | cls c0 =>
        rw [install_stack] at h
        cases hr : resolve_middleware env reg (.cls c0) with
        | ok c =>
          rw [hr] at h
          obtain ⟨t, ht⟩ := ih _ _ h
          exact ⟨⟨c, []⟩ :: t, by simp [ht, add_middleware]⟩
        | error e0 => rw [hr] at h; cases h
      | other n => rw [install_stack] at h; cases h

/-- A pipeline headed by the context-channel middleware passes the
`_is_middleware_registered` check. -/
theorem is_registered_of_headRCM {app : App} (h : headRCM app) :
    is_middleware_registered app RCM = true := by
  obtain ⟨t, ht⟩ := h
  simp [is_middleware_registered, ht]

/-- One call to `register_middlewares` starting from an empty pipeline, or
from any pipeline already headed by the context-channel middleware, yields
a pipeline headed by the context-channel middleware. -/
theorem register_middlewares_headRCM {env : ImportEnv} {reg : Registry} {app : App}
    {stack : List StackEntry} {group : Option String} {app' : App}
    (h : register_middlewares env reg app stack group = .ok app')
    (h0 : app.user_middleware = [] ∨ headRCM app) : headRCM app' := by
  have h1 : headRCM (ensure_rcm app) := by
    cases h0 with
    | inl he =>
      refine ⟨[], ?_⟩
      simp [ensure_rcm, is_middleware_registered, he, add_middleware]
    | inr hr =>
      rw [ensure_rcm, if_pos (is_registered_of_headRCM hr)]
      exact hr
  obtain ⟨t, ht⟩ := h1
  obtain ⟨t2, ht2⟩ := install_stack_append env reg group stack _ _ h
  exact ⟨t ++ t2, by rw [ht2, ht]; simp⟩

/-- The head-is-context-channel property is preserved by any further
sequence of `register_middlewares` calls. -/
theorem install_calls_headRCM (env : ImportEnv) (reg : Registry) :
    ∀ (calls : List (List StackEntry × Option String)) (app app' : App),
      headRCM app → install_calls env reg app calls = .ok app' → headRCM app' := by
  intro calls
  induction calls with
  | nil =>
    intro app app' hh h
    injection h with h
    rwa [← h]
  | cons c rest ih =>
    intro app app' hh h
    rw [install_calls] at h
    cases hr : register_middlewares env reg app c.1 c.2 with
    | ok a1 =>
      rw [hr] at h
      exact ih _ _ (register_middlewares_headRCM hr (Or.inr hh)) h
    | error e0 => rw [hr] at h; cases h

/-- C1: for every stack of descriptors `[A, B, C]` passed to
`register_middlewares`, the order of installation equals the order of
invocation: the resulting pipeline is the context-channel middleware
followed by A, B, C in stack order, and a request through that pipeline
observes the before-logic in order A, B, C and the after-logic in order
C, B, A (with the context-channel middleware outermost). -/
theorem installed_order_equals_invocation_order (env : ImportEnv) (reg : Registry)
    (a b c : MiddlewareDescr) :
    register_middlewares env reg ⟨[]⟩ [.descr a, .descr b, .descr c] none
      = .ok ⟨[⟨RCM, []⟩, ⟨a.cls, a.kwargs⟩, ⟨b.cls, b.kwargs⟩, ⟨c.cls, c.kwargs⟩]⟩ ∧
    runChain [RCM, a.cls, b.cls, c.cls]
      = [.before (mwId RCM), .before (mwId a.cls), .before (mwId b.cls),
         .before (mwId c.cls), .handler, .after (mwId c.cls), .after (mwId b.cls),
         .after (mwId a.cls), .after (mwId RCM)] := by
  constructor
  · simp [register_middlewares, ensure_rcm, is_middleware_registered, install_stack,
      group_allows, add_middleware]
  · simp [runChain]

/-- C2 (amended): after any nonempty sequence of `register_middlewares`
calls starting from an empty pipeline, the context-channel middleware is
the first entry of the pipeline; and whenever it is already present, a
call performs no further automatic insertion (the call is exactly the
stack-iteration loop).  The original claim's "inserted at most once
regardless of stack contents" fails, because a stack entry that itself
resolves to `RequestContextMiddleware` is installed additionally. -/
theorem rcm_always_first_auto_insert_once :
    (∀ (env : ImportEnv) (reg : Registry)
        (calls : List (List StackEntry × Option String)) (app' : App),
      install_calls env reg ⟨[]⟩ calls = .ok app' → calls ≠ [] → headRCM app') ∧
    (∀ (env : ImportEnv) (reg : Registry) (app : App) (stack : List StackEntry)
        (group : Option String),
      is_middleware_registered app RCM = true →
      register_middlewares env reg app stack group = install_stack env reg group app stack) := by
  constructor
  · intro env reg calls app' h hne
    cases calls with
    | nil => exact absurd rfl hne
    | cons c rest =>
      rw [install_calls] at h
      cases hr : register_middlewares env reg ⟨[]⟩ c.1 c.2 with
      | ok a1 =>
        rw [hr] at h
        exact install_calls_headRCM env reg rest a1 app'
          (register_middlewares_headRCM hr (Or.inl rfl)) h
      | error e0 => rw [hr] at h; cases h
  · intro env reg app stack group h
    rw [register_middlewares, ensure_rcm, if_pos h]

/-- C2 witness: a single call with an empty stack yields the pipeline
`[RequestContextMiddleware]`, which is headed by the context-channel
middleware; and on an app already containing it, a call is exactly the
stack loop. -/
theorem rcm_always_first_auto_insert_once_witness :
    headRCM ⟨[⟨RCM, []⟩]⟩ ∧
    register_middlewares (fun _ => none) [] ⟨[⟨RCM, []⟩]⟩ [] none
      = install_stack (fun _ => none) [] none ⟨[⟨RCM, []⟩]⟩ [] :=
  ⟨rcm_always_first_auto_insert_once.1 (fun _ => none) [] [([], none)] ⟨[⟨RCM, []⟩]⟩ rfl
      (by simp),
   rcm_always_first_auto_insert_once.2 (fun _ => none) [] ⟨[⟨RCM, []⟩]⟩ [] none rfl⟩

/-- C2 counterexample: a stack whose single entry is a descriptor for
`RequestContextMiddleware` itself makes `register_middlewares` install the
context-channel middleware twice (the guarded automatic insertion plus the
stack entry), refuting "inserted at most once regardless of stack
contents". -/
theorem rcm_inserted_twice_for_rcm_stack_entry :
    register_middlewares (fun _ => none) [] ⟨[]⟩
      [.descr ⟨.cls RequestContextMiddlewareClass, RCM, [], []⟩] none
      = .ok ⟨[⟨RCM, []⟩, ⟨RCM, []⟩]⟩ ∧
    (App.mk [⟨RCM, []⟩, ⟨RCM, []⟩]).user_middleware.countP (fun m => m.cls == RCM) = 2 :=
  ⟨rfl, rfl⟩

/-- C3 (amended): a string reference that is not bound in the registry is
treated as an import path, not as a name: when it is not a valid dotted
path, resolution fails with the wrapped `ImportError` — the code produces
no dedicated unknown-middleware-name error. -/
theorem unbound_undotted_string_fails_with_import_error (env : ImportEnv)
    (reg : Registry) (s : String) (h1 : reg.lookup s = none)
    (h2 : s.toList.contains '.' = false) :
    resolve_middleware env reg (.str s) = .error (.importError s) := by
  have hmem : '.' ∉ s.data := by simpa [String.toList] using h2
  simp [resolve_middleware, h1, import_string, hmem]

/-- C3 witness: resolving the unregistered, undotted name `"nope"` fails
with the import error. -/
theorem unbound_undotted_string_fails_with_import_error_witness :
    resolve_middleware (fun _ => none) [] (.str "nope")
      = .error (.importError "nope") :=
  unbound_undotted_string_fails_with_import_error (fun _ => none) [] "nope" rfl (by decide)

/-- C3 counterexample: resolving the unregistered name `"nope"` raises the
import-resolution error, which is not an unknown-middleware-name error, so
the claimed `UnknownMiddlewareName` failure does not occur. -/
theorem resolve_nope_raises_import_error_not_unknown_name :
    resolve_middleware (fun _ => none) [] (.str "nope")
      = .error (.importError "nope") ∧
    KernelError.importError "nope" ≠ KernelError.unknownMiddlewareName "nope" :=
  ⟨rfl, by simp⟩

/-- C4: every class reference resolves successfully — in particular a
class implementing neither the chain-dispatch capability nor the
transport capability (no instance-level `__call__`, not a
`BaseHTTPMiddleware` subclass) is accepted and returned as if it were an
ASGI middleware, because `callable(getattr(cls, "__call__", None))` holds
for every class via the metaclass, making the invalid-class branch of
`_resolve_middleware` unreachable.  Only the non-class, non-callable case
fails as claimed, with the error naming the offending value and its type. -/
theorem invalid_class_accepted_as_asgi_middleware :
    (∀ (env : ImportEnv) (reg : Registry) (c : ClassVal),
      resolve_middleware env reg (.cls c) = .ok (.mwClass c)) ∧
    is_asgi_middleware_intended ⟨5, false, false⟩ = false ∧
    resolve_middleware (fun _ => none) [] (.cls ⟨5, false, false⟩)
      = .ok (.mwClass ⟨5, false, false⟩) ∧
    resolve_middleware (fun _ => none) [] (.other 7)
      = .error (.invalidRef (.other 7)) := by
  refine ⟨?_, rfl, rfl, rfl⟩
  intro env reg c
  cases hb : c.isBaseHTTPSubclass <;>
    simp [resolve_middleware, is_asgi_middleware, callableGetattrCall, hb]

/-- C5 (amended): the function wrapper performs no parameter inspection
and no pass-through fallback: when the function accepts a continuation and
returns no value, the wrapper's response is no value for every
continuation (the continuation's response is never substituted); when the
function does not accept a continuation, dispatch raises `TypeError`
instead of invoking it for its side effect. -/
theorem func_wrapper_forwards_unconditionally (sem : Sem) (f : FuncVal)
    (kwargs : Kwargs) (request : Nat) (call_next : Nat → Option Nat) :
    (f.acceptsCallNext = true → sem f.id kwargs request call_next = none →
      FuncMiddleware_dispatch sem f kwargs request call_next = .ok none) ∧
    (f.acceptsCallNext = false →
      FuncMiddleware_dispatch sem f kwargs request call_next = .error .typeError) := by
  constructor
  · intro h1 h2
    simp [FuncMiddleware_dispatch, h1, h2]
  · intro h1
    simp [FuncMiddleware_dispatch, h1]

/-- C5 witness: a continuation-accepting function body that returns no
value makes the wrapper answer no value even though the continuation would
answer 42; a function without a continuation parameter raises `TypeError`. -/
theorem func_wrapper_forwards_unconditionally_witness :
    FuncMiddleware_dispatch (fun _ _ _ _ => none) ⟨2, true⟩ [] 1 (fun _ => some 42)
      = .ok none ∧
    FuncMiddleware_dispatch (fun _ _ _ _ => none) ⟨2, false⟩ [] 1 (fun _ => some 42)
      = .error .typeError :=
  ⟨(func_wrapper_forwards_unconditionally (fun _ _ _ _ => none) ⟨2, true⟩ [] 1
      (fun _ => some 42)).1 rfl rfl,
   (func_wrapper_forwards_unconditionally (fun _ _ _ _ => none) ⟨2, false⟩ [] 1
      (fun _ => some 42)).2 rfl⟩

/-- C5 counterexample: for a function that accepts a continuation and
returns no value, the claimed wrapper behaviour (invoke the continuation
as a pass-through, answering 42 here) differs from the code's wrapper,
which answers no value. -/
theorem func_wrapper_no_pass_through_fallback_cex :
    FuncMiddleware_dispatch (fun _ _ _ _ => none) ⟨2, true⟩ [] 1 (fun _ => some 42)
      = .ok none ∧
    spec_func_wrapper_dispatch (fun _ _ _ _ => none) ⟨2, true⟩ [] 1 (fun _ => some 42)
      = .ok (some 42) ∧
    (Except.ok (none : Option Nat) : Except KernelError (Option Nat)) ≠ .ok (some 42) :=
  ⟨rfl, rfl, by simp⟩

/-- C6 (amended): applying a transport-capable (raw ASGI) middleware at
route level succeeds at decoration time — the reference resolves and the
route is registered with the wrapped handler — and the invalid-middleware
error is raised at request time, on invocation with a request in context. -/
theorem transport_route_middleware_fails_at_request_time (env : ImportEnv)
    (reg : Registry) (c : ClassVal) (kwargs : Kwargs) (app : App) (sem : Sem)
    (handlerResult : Option Nat) (request : Nat)
    (h : c.isBaseHTTPSubclass = false) :
    route_middleware_decorate env reg (.cls c) kwargs (some app)
      = .ok (.mwClass c, kwargs) ∧
    wrapped_handler sem (.mwClass c) kwargs handlerResult (some request)
      = .error .asgiNotRouteApplicable := by
  constructor
  · simp [route_middleware_decorate, resolve_middleware, is_asgi_middleware,
      callableGetattrCall, h]
  · simp [wrapped_handler, is_asgi_middleware, callableGetattrCall, h]

/-- C6 witness: a raw ASGI middleware class decorates successfully and its
wrapped handler fails only when invoked. -/
theorem transport_route_middleware_fails_at_request_time_witness :
    route_middleware_decorate (fun _ => none) [] (.cls ⟨7, false, true⟩) [] (some ⟨[]⟩)
      = .ok (.mwClass ⟨7, false, true⟩, []) ∧
    wrapped_handler (fun _ _ _ _ => none) (.mwClass ⟨7, false, true⟩) [] (some 5) (some 1)
      = .error .asgiNotRouteApplicable :=
  transport_route_middleware_fails_at_request_time (fun _ => none) [] ⟨7, false, true⟩ []
    ⟨[]⟩ (fun _ _ _ _ => none) (some 5) 1 rfl

/-- C6 counterexample: decorating with a transport-capable middleware does
not fail at decoration time — it returns the wrapped route (`.ok`), and
the error surfaces only at request time — refuting "fails at decoration
time, before the route is registered in a broken state". -/
theorem transport_route_decoration_succeeds_cex :
    route_middleware_decorate (fun _ => none) [] (.cls ⟨9, false, true⟩) [] (some ⟨[]⟩)
      = .ok (.mwClass ⟨9, false, true⟩, []) ∧
    wrapped_handler (fun _ _ _ _ => none) (.mwClass ⟨9, false, true⟩) [] (some 8) (some 2)
      = .error .asgiNotRouteApplicable :=
  ⟨rfl, rfl⟩

/-- C7 (amended): `register_named_middleware` fails with the
duplicate-name error when the name is bound and override is false, and
otherwise (re)binds the name; but the bulk pre-load of the static name
table calls it with the default `override=False` for every entry, so a
repeated load of a table whose entry is already bound fails with the
duplicate-name error instead of being an idempotent reload. -/
theorem register_semantics_and_bulk_load_no_override :
    (∀ (reg : Registry) (n : String) (r : MiddlewareRef),
      (reg.lookup n).isSome = true →
      register_named_middleware reg n r false = .error (.duplicateName n)) ∧
    (∀ (reg : Registry) (n : String) (r : MiddlewareRef) (override : Bool),
      ((reg.lookup n).isSome = false ∨ override = true) →
      ∃ reg1, register_named_middleware reg n r override = .ok reg1 ∧
        reg1.lookup n = some r) ∧
    (∀ (n : String) (r : MiddlewareRef) (rest : List (String × MiddlewareRef))
        (reg : Registry),
      (reg.lookup n).isSome = true →
      bulk_load_named ((n, r) :: rest) reg = .error (.duplicateName n)) := by
  refine ⟨?_, ?_, ?_⟩
  · intro reg n r h
    simp [register_named_middleware, h]
  · intro reg n r ov h
    refine ⟨(n, r) :: reg.filter (fun p => p.1 != n), ?_, ?_⟩
    · rcases h with h | h
      · simp [register_named_middleware, h]
      · simp [register_named_middleware, h]
    · simp [List.lookup]
  · intro n r rest reg h
    simp [bulk_load_named, register_named_middleware, h]

/-- C7 witness: concrete duplicate registration fails, override rebinds
and the lookup returns the new reference, and a bulk load over an
already-bound name fails. -/
theorem register_semantics_and_bulk_load_no_override_witness :
    register_named_middleware [("x", .other 0)] "x" (.other 1) false
      = .error (.duplicateName "x") ∧
    (∃ reg1, register_named_middleware [("x", .other 0)] "x" (.other 1) true
        = .ok reg1 ∧ reg1.lookup "x" = some (.other 1)) ∧
    bulk_load_named [("x", .other 1)] [("x", .other 0)]
      = .error (.duplicateName "x") :=
  ⟨register_semantics_and_bulk_load_no_override.1 [("x", .other 0)] "x" (.other 1) rfl,
   register_semantics_and_bulk_load_no_override.2.1 [("x", .other 0)] "x" (.other 1)
     true (Or.inr rfl),
   register_semantics_and_bulk_load_no_override.2.2 "x" (.other 1) [] [("x", .other 0)] rfl⟩

/-- C7 counterexample: loading the one-entry table `{"a": f}` into an
empty registry succeeds, but loading the same table again over the result
raises the duplicate-name error, refuting "repeated load of the same table
is idempotent and never errors". -/
theorem bulk_reload_raises_duplicate_cex :
    bulk_load_named [("a", .func ⟨1, true⟩)] [] = .ok [("a", .func ⟨1, true⟩)] ∧
    bulk_load_named [("a", .func ⟨1, true⟩)] [("a", .func ⟨1, true⟩)]
      = .error (.duplicateName "a") :=
  ⟨rfl, rfl⟩

/-- C8: every invocation of a handler wrapped by the route-level
applicator fails closed with the missing-request-context error when no
in-flight request is observable in the context slot, for every middleware
shape, construction arguments and handler. -/
theorem route_handler_fails_closed_without_request_context (sem : Sem)
    (cls : Resolved) (kwargs : Kwargs) (handlerResult : Option Nat) :
    wrapped_handler sem cls kwargs handlerResult none
      = .error .missingRequestContext := rfl

/-- C9: the context-channel middleware runs its continuation with the slot
set to the incoming request, propagates the continuation's outcome
(normal or exceptional), and on every exit path leaves the slot restored
to its pre-entry value. -/
theorem request_context_dispatch_restores_slot (slot : Option Nat) (request : Nat)
    (call_next : Nat → Option Nat → Except KernelError (Option Nat) × Option Nat) :
    (requestContext_dispatch slot request call_next).2 = slot ∧
    (requestContext_dispatch slot request call_next).1
      = (call_next request (some request)).1 :=
  ⟨rfl, rfl⟩

/-- C10: a stack entry that is a raw reference (string, function or class)
resolving successfully is installed unconditionally — for every group
argument — and with no construction arguments. -/
theorem raw_refs_installed_unconditionally (env : ImportEnv) (reg : Registry)
    (app : App) (group : Option String) (r : MiddlewareRef) (c : Resolved)
    (h : resolve_middleware env reg r = .ok c) :
    register_middlewares env reg app [.raw r] group
      = .ok ⟨(ensure_rcm app).user_middleware ++ [⟨c, []⟩]⟩ := by
  cases r with
  | str s => simp [register_middlewares, install_stack, h, add_middleware]
  | func f => simp [register_middlewares, install_stack, h, add_middleware]
  | cls c0 => simp [register_middlewares, install_stack, h, add_middleware]
  | other n => simp [resolve_middleware] at h

/-- C10 witness: a raw function reference in the stack is installed with
empty kwargs under the group argument `"g"`, which no descriptor filter
ever sees. -/
theorem raw_refs_installed_unconditionally_witness :
    register_middlewares (fun _ => none) [] ⟨[]⟩ [.raw (.func ⟨3, true⟩)] (some "g")
      = .ok ⟨[⟨RCM, []⟩, ⟨.funcMiddleware ⟨3, true⟩, []⟩]⟩ :=
  raw_refs_installed_unconditionally (fun _ => none) [] ⟨[]⟩ (some "g")
    (.func ⟨3, true⟩) (.funcMiddleware ⟨3, true⟩) rfl
